import Mathlib

/-!
Shallow embedding of the sweetychat-hat photo-overlay editor.
The repository holds five near-duplicate variants of one React component:
  * `Main`  — src/src/components/PhotoEditor/PhotoEditor.tsx (elizaOS skin,
    hat assets right/left with an optional duct-tape accessory);
  * `V1`    — src/unnamed/part_001 (AI16Z skin, hat assets right/left only,
    flip swaps the asset directly, reset restores only the Transform);
  * `V2`    — first component of src/unnamed/part_002, lines 1-383
    (sweetychat skin, hat assets right/left, an isFlipped flag, a fixed
    400 px overlay footprint, reset restores Transform, flag and asset);
  * `V3`    — second component of src/unnamed/part_002, lines 384-827
    (windows-skin sweetychat editor: same hat state as V2 plus a
    `showModal` flag dismissed by its own untracked 2-second timer, and an
    export that reads the live rendered overlay footprint,
    `overlayRect.width`, instead of a fixed one);
  * `V4`    — third component of src/unnamed/part_002, lines 828-1296
    (elizaOS skin with an orange/blue `hatColor` selector over eight hat
    assets resolved by `getHatImage`; reset clears flip and tape but keeps
    the selected color, export filename `eliza-hat.png`).
Numbers held in component state are modelled as rationals; the compositor's
rotation angle is kept exactly as a rational coefficient of pi radians.
-/

namespace SweetyChat

/-- `Position {x, y}` from src/unnamed/part_000 (types.ts). -/
structure Position where
  x : ℚ
  y : ℚ
deriving DecidableEq, Repr

/-- `Transform` from src/unnamed/part_000 (types.ts). -/
structure Transform where
  position : Position
  rotation : ℚ
  scale : ℚ
  flipX : Bool
deriving DecidableEq, Repr

/-- The `direction` argument of `handleRotate`. -/
inductive RotDir where
  | left
  | right
deriving DecidableEq, Repr

/-- The `direction` argument of `handleScale`. -/
inductive ScaleDir where
  | up
  | down
deriving DecidableEq, Repr

/-- The initial `transform` state shared by all variants, and the value
`handleReset` writes back. -/
def initialTransform : Transform :=
  { position := { x := 0, y := 0 }, rotation := 0, scale := 1, flipX := false }

/-- Body of `handleRotate` (identical in all three variants):
`rotation := prev.rotation + (direction === 'left' ? -15 : 15)`. -/
def rotateTransform (direction : RotDir) (t : Transform) : Transform :=
  { t with rotation := t.rotation + (match direction with | .left => -15 | .right => 15) }

/-- Body of `handleScale` (identical in all three variants):
`scale := Math.max(0.1, Math.min(7, prev.scale * (direction === 'up' ? 1.1 : 0.9)))`. -/
def scaleTransform (direction : ScaleDir) (t : Transform) : Transform :=
  { t with scale := max 0.1 (min 7 (t.scale * (match direction with | .up => 1.1 | .down => 0.9))) }

/-- The `'error' | 'success'` tag of a status message. -/
inductive StatusType where
  | error
  | success
deriving DecidableEq, Repr

/-- The `status` state: `{ message, type }`. -/
structure Status where
  message : String
  type : StatusType
deriving DecidableEq, Repr

/-- `originalImageSize` state: `{ width, height }`. -/
structure ImgSize where
  width : ℚ
  height : ℚ
deriving DecidableEq, Repr

/-- One canvas-context operation issued by the export path of `handleSave`
(between `ctx.save()` and `ctx.restore()`, plus the base-image draw).
Angles are stored exactly, as rational multiples of pi radians: `rotate c`
is the context call `ctx.rotate(c * Math.PI)`, so the code's
`ctx.rotate((transform.rotation * Math.PI) / 180)` — degrees converted to
radians — is embedded as `rotate (transform.rotation / 180)`. -/
inductive CanvasOp where
  | translate (x y : ℚ)
  | rotate (radiansPerPi : ℚ)
  | scaleOp (x y : ℚ)
  | drawImg (x y w h : ℚ)
deriving DecidableEq, Repr

/-- One entry of the CSS `transform` list produced by `getOverlayStyle`. -/
inductive CssOp where
  | translatePercent (px py : ℚ)
  | translatePx (x y : ℚ)
  | rotateDeg (deg : ℚ)
  | scaleXY (x y : ℚ)
deriving DecidableEq, Repr

/-- `getOverlayStyle` (identical in all three variants):
`translate(-50%, -50%) translate(x px, y px) rotate(r deg)
 scale(scale * (flipX ? -1 : 1), scale)`. -/
def getOverlayStyle (t : Transform) : List CssOp :=
  [CssOp.translatePercent (-50) (-50),
   CssOp.translatePx t.position.x t.position.y,
   CssOp.rotateDeg t.rotation,
   CssOp.scaleXY (t.scale * (if t.flipX then -1 else 1)) t.scale]

namespace Main

/-- The hat assets imported by src/src/components/PhotoEditor/PhotoEditor.tsx:
right.png, left.png, right-tape.png, left-tape.png. -/
inductive HatImage where
  | rightImage
  | leftImage
  | rightTapeImage
  | leftTapeImage
deriving DecidableEq, Repr

/-- The component state of the Main variant (PhotoEditor.tsx), including the
drag refs (`isDragging`, `dragStart`) and the status-timeout bookkeeping
(`pendingTimer` models `statusTimeoutRef`; `nextTimer` allocates fresh timer
ids; `cleared` records ids passed to `clearTimeout`). -/
structure EditorState where
  baseImage : String
  currentHatImage : HatImage
  hasTape : Bool
  isFlipped : Bool
  transform : Transform
  originalImageSize : ImgSize
  status : Option Status
  isDragging : Bool
  dragStart : Position
  pendingTimer : Option Nat
  nextTimer : Nat
  cleared : List Nat
deriving DecidableEq, Repr

/-- The initial component state. -/
def initState : EditorState :=
  { baseImage := ""
    currentHatImage := .rightImage
    hasTape := false
    isFlipped := false
    transform := initialTransform
    originalImageSize := { width := 0, height := 0 }
    status := none
    isDragging := false
    dragStart := { x := 0, y := 0 }
    pendingTimer := none
    nextTimer := 0
    cleared := [] }

/-- `showStatus`: clears any pending dismissal timeout, displays the message,
and schedules a fresh 1-second dismissal timer. -/
def showStatus (message : String) (type : StatusType) (s : EditorState) : EditorState :=
  { s with
    cleared := match s.pendingTimer with
      | some tid => tid :: s.cleared
      | none => s.cleared
    status := some { message := message, type := type }
    pendingTimer := some s.nextTimer
    nextTimer := s.nextTimer + 1 }

/-- A scheduled dismissal timer elapsing: a timer fires only if it was
allocated and never passed to `clearTimeout`; its callback is
`setStatus(null)`. -/
def fireTimer (tid : Nat) (s : EditorState) : EditorState :=
  if tid ∈ s.cleared ∨ s.nextTimer ≤ tid then s else { s with status := none }

/-- `handleBaseImageUpload`: non-image files are rejected with an error
status; an image file stores the data url, records the native size and shows
a success status. -/
def handleBaseImageUpload (isImageFile : Bool) (dataUrl : String) (w h : ℚ)
    (s : EditorState) : EditorState :=
  if isImageFile = false then
    showStatus "Please select an image file" .error s
  else
    { showStatus "Image loaded successfully" .success s with
      baseImage := dataUrl
      originalImageSize := { width := w, height := h } }

/-- `handleMouseDown`. -/
def handleMouseDown (clientX clientY : ℚ) (s : EditorState) : EditorState :=
  { s with
    isDragging := true
    dragStart := { x := clientX - s.transform.position.x, y := clientY - s.transform.position.y } }

/-- `handleMouseMove`. -/
def handleMouseMove (clientX clientY : ℚ) (s : EditorState) : EditorState :=
  if s.isDragging then
    { s with transform := { s.transform with
        position := { x := clientX - s.dragStart.x, y := clientY - s.dragStart.y } } }
  else s

/-- `handleMouseUp`. -/
def handleMouseUp (s : EditorState) : EditorState :=
  { s with isDragging := false }

/-- `handleTouchStart`: acts only on a single-contact touch. -/
def handleTouchStart (touches : List Position) (s : EditorState) : EditorState :=
  match touches with
  | [touch] =>
    { s with
      isDragging := true
      dragStart := { x := touch.x - s.transform.position.x, y := touch.y - s.transform.position.y } }
  | _ => s

/-- `handleTouchMove`: acts only while dragging with a single contact. -/
def handleTouchMove (touches : List Position) (s : EditorState) : EditorState :=
  match touches with
  | [touch] =>
    if s.isDragging then
      { s with transform := { s.transform with
          position := { x := touch.x - s.dragStart.x, y := touch.y - s.dragStart.y } } }
    else s
  | _ => s

/-- `handleTouchEnd` (also bound to touch-cancel). -/
def handleTouchEnd (s : EditorState) : EditorState :=
  { s with isDragging := false }

/-- `handleRotate`. -/
def handleRotate (direction : RotDir) (s : EditorState) : EditorState :=
  { s with transform := rotateTransform direction s.transform }

/-- `handleScale`. -/
def handleScale (direction : ScaleDir) (s : EditorState) : EditorState :=
  { s with transform := scaleTransform direction s.transform }

/-- `handleFlip`: toggles `isFlipped` and re-resolves the hat asset from the
pre-toggle `isFlipped` and the current `hasTape`. -/
def handleFlip (s : EditorState) : EditorState :=
  { s with
    isFlipped := !s.isFlipped
    currentHatImage :=
      if !s.isFlipped then
        (if s.hasTape then .leftTapeImage else .leftImage)
      else
        (if s.hasTape then .rightTapeImage else .rightImage) }

/-- `handleTape`: toggles `hasTape` and re-resolves the hat asset from the
current `isFlipped` and the pre-toggle `hasTape`. -/
def handleTape (s : EditorState) : EditorState :=
  { s with
    hasTape := !s.hasTape
    currentHatImage :=
      if s.isFlipped then
        (if !s.hasTape then .leftTapeImage else .leftImage)
      else
        (if !s.hasTape then .rightTapeImage else .rightImage) }

/-- `handleReset`: restores the identity transform, clears both toggles and
restores the default (right, tapeless) hat asset. -/
def handleReset (s : EditorState) : EditorState :=
  { s with
    transform :=
      { position := { x := 0, y := 0 }, rotation := 0, scale := 1, flipX := false }
    hasTape := false
    isFlipped := false
    currentHatImage := .rightImage }

/-- The overlay part of the export path (PhotoEditor.tsx lines 220-233):
translate to image center plus scaled position, rotate (radians), mirror when
`flipX`, uniform scale, then draw the hat centered on the origin with a 100 px
display footprint scaled by `scaleX`. -/
def exportOverlayOps (t : Transform) (centerX centerY scaleX scaleY hatW hatH : ℚ) :
    List CanvasOp :=
  let overlayWidth := 100 * scaleX
  let overlayHeight := overlayWidth * hatH / hatW
  [CanvasOp.translate (centerX + t.position.x * scaleX) (centerY + t.position.y * scaleY),
   CanvasOp.rotate (t.rotation / 180)]
  ++ (if t.flipX then [CanvasOp.scaleOp (-1) 1] else [])
  ++ [CanvasOp.scaleOp t.scale t.scale,
      CanvasOp.drawImg (-overlayWidth / 2) (-overlayHeight / 2) overlayWidth overlayHeight]

/-- The outcome of one `handleSave` call: the resulting component state, the
download it triggered (if any) and the canvas operations it issued. -/
structure SaveResult where
  state : EditorState
  download : Option String
  canvasOps : List CanvasOp

/-- `handleSave`: aborts with an error status when no base image is loaded or
a ref is unset; on a canvas-context failure the catch block reports a save
error; otherwise draws the base image full-frame, composites the overlay at
native resolution and triggers the download. -/
def handleSave (overlayRefSet containerRefSet ctxOk : Bool)
    (containerWidth containerHeight hatW hatH : ℚ) (s : EditorState) : SaveResult :=
  if s.baseImage = "" ∨ overlayRefSet = false ∨ containerRefSet = false then
    { state := showStatus "Please upload an image first" .error s
      download := none
      canvasOps := [] }
  else if ctxOk = false then
    { state := showStatus "Error saving image" .error s
      download := none
      canvasOps := [] }
  else
    let canvasWidth := s.originalImageSize.width
    let canvasHeight := s.originalImageSize.height
    let containerAspect := containerWidth / containerHeight
    let imageAspect := canvasWidth / canvasHeight
    let displayedWidth :=
      if containerAspect > imageAspect then containerHeight * imageAspect else containerWidth
    let displayedHeight :=
      if containerAspect > imageAspect then containerHeight else containerWidth / imageAspect
    let scaleX := canvasWidth / displayedWidth
    let scaleY := canvasHeight / displayedHeight
    { state := showStatus "Image saved successfully" .success s
      download := some "you-are-a-partner-now.png"
      canvasOps :=
        CanvasOp.drawImg 0 0 canvasWidth canvasHeight
        :: exportOverlayOps s.transform (canvasWidth / 2) (canvasHeight / 2) scaleX scaleY hatW hatH }

/-- Every user-visible event of the Main variant. -/
inductive Act where
  | upload (isImageFile : Bool) (dataUrl : String) (w h : ℚ)
  | rotateAct (d : RotDir)
  | scaleAct (d : ScaleDir)
  | flipAct
  | tapeAct
  | resetAct
  | mouseDown (x y : ℚ)
  | mouseMove (x y : ℚ)
  | mouseUp
  | touchStart (touches : List Position)
  | touchMove (touches : List Position)
  | touchEnd
  | saveAct (overlayRefSet containerRefSet ctxOk : Bool) (cw ch hw hh : ℚ)
  | timerFire (tid : Nat)

/-- The event dispatcher: the state effect of each handler. -/
def step (s : EditorState) : Act → EditorState
  | .upload ok url w h => handleBaseImageUpload ok url w h s
  | .rotateAct d => handleRotate d s
  | .scaleAct d => handleScale d s
  | .flipAct => handleFlip s
  | .tapeAct => handleTape s
  | .resetAct => handleReset s
  | .mouseDown x y => handleMouseDown x y s
  | .mouseMove x y => handleMouseMove x y s
  | .mouseUp => handleMouseUp s
  | .touchStart ts => handleTouchStart ts s
  | .touchMove ts => handleTouchMove ts s
  | .touchEnd => handleTouchEnd s
  | .saveAct a b c cw ch hw hh => (handleSave a b c cw ch hw hh s).state
  | .timerFire tid => fireTimer tid s

/-- States reachable from the initial state by any event sequence. -/
inductive Reachable : EditorState → Prop where
  | init : Reachable initState
  | next {s : EditorState} (a : Act) : Reachable s → Reachable (step s a)

end Main

namespace V1

/-- The hat assets imported by src/unnamed/part_001: right.png, left.png. -/
inductive HatImage where
  | rightImage
  | leftImage
deriving DecidableEq, Repr

/-- The component state of the V1 variant (src/unnamed/part_001); it has no
`hasTape` and no `isFlipped` state. -/
structure EditorState where
  baseImage : String
  currentHatImage : HatImage
  transform : Transform
  originalImageSize : ImgSize
  status : Option Status
  isDragging : Bool
  dragStart : Position
  pendingTimer : Option Nat
  nextTimer : Nat
  cleared : List Nat
deriving DecidableEq, Repr

/-- The initial component state. -/
def initState : EditorState :=
  { baseImage := ""
    currentHatImage := .rightImage
    transform := initialTransform
    originalImageSize := { width := 0, height := 0 }
    status := none
    isDragging := false
    dragStart := { x := 0, y := 0 }
    pendingTimer := none
    nextTimer := 0
    cleared := [] }

/-- `showStatus` (identical logic to the Main variant). -/
def showStatus (message : String) (type : StatusType) (s : EditorState) : EditorState :=
  { s with
    cleared := match s.pendingTimer with
      | some tid => tid :: s.cleared
      | none => s.cleared
    status := some { message := message, type := type }
    pendingTimer := some s.nextTimer
    nextTimer := s.nextTimer + 1 }

/-- A scheduled dismissal timer elapsing. -/
def fireTimer (tid : Nat) (s : EditorState) : EditorState :=
  if tid ∈ s.cleared ∨ s.nextTimer ≤ tid then s else { s with status := none }

/-- `handleBaseImageUpload` (identical logic to the Main variant). -/
def handleBaseImageUpload (isImageFile : Bool) (dataUrl : String) (w h : ℚ)
    (s : EditorState) : EditorState :=
  if isImageFile = false then
    showStatus "Please select an image file" .error s
  else
    { showStatus "Image loaded successfully" .success s with
      baseImage := dataUrl
      originalImageSize := { width := w, height := h } }

/-- `handleMouseDown`. -/
def handleMouseDown (clientX clientY : ℚ) (s : EditorState) : EditorState :=
  { s with
    isDragging := true
    dragStart := { x := clientX - s.transform.position.x, y := clientY - s.transform.position.y } }

/-- `handleMouseMove`. -/
def handleMouseMove (clientX clientY : ℚ) (s : EditorState) : EditorState :=
  if s.isDragging then
    { s with transform := { s.transform with
        position := { x := clientX - s.dragStart.x, y := clientY - s.dragStart.y } } }
  else s

/-- `handleMouseUp`. -/
def handleMouseUp (s : EditorState) : EditorState :=
  { s with isDragging := false }

/-- `handleTouchStart`. -/
def handleTouchStart (touches : List Position) (s : EditorState) : EditorState :=
  match touches with
  | [touch] =>
    { s with
      isDragging := true
      dragStart := { x := touch.x - s.transform.position.x, y := touch.y - s.transform.position.y } }
  | _ => s

/-- `handleTouchMove`. -/
def handleTouchMove (touches : List Position) (s : EditorState) : EditorState :=
  match touches with
  | [touch] =>
    if s.isDragging then
      { s with transform := { s.transform with
          position := { x := touch.x - s.dragStart.x, y := touch.y - s.dragStart.y } } }
    else s
  | _ => s

/-- `handleTouchEnd`. -/
def handleTouchEnd (s : EditorState) : EditorState :=
  { s with isDragging := false }

/-- `handleRotate`. -/
def handleRotate (direction : RotDir) (s : EditorState) : EditorState :=
  { s with transform := rotateTransform direction s.transform }

/-- `handleScale`. -/
def handleScale (direction : ScaleDir) (s : EditorState) : EditorState :=
  { s with transform := scaleTransform direction s.transform }

/-- `handleFlip` in V1 swaps the hat asset directly:
`prev === rightImage ? leftImage : rightImage`. -/
def handleFlip (s : EditorState) : EditorState :=
  { s with currentHatImage :=
      if s.currentHatImage = .rightImage then .leftImage else .rightImage }

/-- `handleReset` in V1 restores only the transform; `currentHatImage` is
left untouched. -/
def handleReset (s : EditorState) : EditorState :=
  { s with transform :=
      { position := { x := 0, y := 0 }, rotation := 0, scale := 1, flipX := false } }

/-- Overlay export ops (part_001 lines 196-208): same pipeline as Main,
100 px footprint, the same op order. -/
def exportOverlayOps (t : Transform) (centerX centerY scaleX scaleY hatW hatH : ℚ) :
    List CanvasOp :=
  let overlayWidth := 100 * scaleX
  let overlayHeight := overlayWidth * hatH / hatW
  [CanvasOp.translate (centerX + t.position.x * scaleX) (centerY + t.position.y * scaleY),
   CanvasOp.rotate (t.rotation / 180)]
  ++ (if t.flipX then [CanvasOp.scaleOp (-1) 1] else [])
  ++ [CanvasOp.scaleOp t.scale t.scale,
      CanvasOp.drawImg (-overlayWidth / 2) (-overlayHeight / 2) overlayWidth overlayHeight]

/-- The outcome of one V1 `handleSave` call. -/
structure SaveResult where
  state : EditorState
  download : Option String
  canvasOps : List CanvasOp

/-- `handleSave` (V1): identical guard and pipeline, download filename
`you-are-a-partner-now.png`. -/
def handleSave (overlayRefSet containerRefSet ctxOk : Bool)
    (containerWidth containerHeight hatW hatH : ℚ) (s : EditorState) : SaveResult :=
  if s.baseImage = "" ∨ overlayRefSet = false ∨ containerRefSet = false then
    { state := showStatus "Please upload an image first" .error s
      download := none
      canvasOps := [] }
  else if ctxOk = false then
    { state := showStatus "Error saving image" .error s
      download := none
      canvasOps := [] }
  else
    let canvasWidth := s.originalImageSize.width
    let canvasHeight := s.originalImageSize.height
    let containerAspect := containerWidth / containerHeight
    let imageAspect := canvasWidth / canvasHeight
    let displayedWidth :=
      if containerAspect > imageAspect then containerHeight * imageAspect else containerWidth
    let displayedHeight :=
      if containerAspect > imageAspect then containerHeight else containerWidth / imageAspect
    let scaleX := canvasWidth / displayedWidth
    let scaleY := canvasHeight / displayedHeight
    { state := showStatus "Image saved successfully" .success s
      download := some "you-are-a-partner-now.png"
      canvasOps :=
        CanvasOp.drawImg 0 0 canvasWidth canvasHeight
        :: exportOverlayOps s.transform (canvasWidth / 2) (canvasHeight / 2) scaleX scaleY hatW hatH }

/-- Every user-visible event of the V1 variant (it has no tape button). -/
inductive Act where
  | upload (isImageFile : Bool) (dataUrl : String) (w h : ℚ)
  | rotateAct (d : RotDir)
  | scaleAct (d : ScaleDir)
  | flipAct
  | resetAct
  | mouseDown (x y : ℚ)
  | mouseMove (x y : ℚ)
  | mouseUp
  | touchStart (touches : List Position)
  | touchMove (touches : List Position)
  | touchEnd
  | saveAct (overlayRefSet containerRefSet ctxOk : Bool) (cw ch hw hh : ℚ)
  | timerFire (tid : Nat)

/-- The event dispatcher of the V1 variant. -/
def step (s : EditorState) : Act → EditorState
  | .upload ok url w h => handleBaseImageUpload ok url w h s
  | .rotateAct d => handleRotate d s
  | .scaleAct d => handleScale d s
  | .flipAct => handleFlip s
  | .resetAct => handleReset s
  | .mouseDown x y => handleMouseDown x y s
  | .mouseMove x y => handleMouseMove x y s
  | .mouseUp => handleMouseUp s
  | .touchStart ts => handleTouchStart ts s
  | .touchMove ts => handleTouchMove ts s
  | .touchEnd => handleTouchEnd s
  | .saveAct a b c cw ch hw hh => (handleSave a b c cw ch hw hh s).state
  | .timerFire tid => fireTimer tid s

/-- States reachable in the V1 variant. -/
inductive Reachable : EditorState → Prop where
  | init : Reachable initState
  | next {s : EditorState} (a : Act) : Reachable s → Reachable (step s a)

end V1

namespace V2

/-- The hat assets imported by the first component of src/unnamed/part_002
(lines 1-383): right.png, left.png. -/
inductive HatImage where
  | rightImage
  | leftImage
deriving DecidableEq, Repr

/-- The component state of the V2 variant (first component of
src/unnamed/part_002, lines 1-383); it has an `isFlipped` flag but no
`hasTape`. -/
structure EditorState where
  baseImage : String
  currentHatImage : HatImage
  isFlipped : Bool
  transform : Transform
  originalImageSize : ImgSize
  status : Option Status
  isDragging : Bool
  dragStart : Position
  pendingTimer : Option Nat
  nextTimer : Nat
  cleared : List Nat
deriving DecidableEq, Repr

/-- The initial component state. -/
def initState : EditorState :=
  { baseImage := ""
    currentHatImage := .rightImage
    isFlipped := false
    transform := initialTransform
    originalImageSize := { width := 0, height := 0 }
    status := none
    isDragging := false
    dragStart := { x := 0, y := 0 }
    pendingTimer := none
    nextTimer := 0
    cleared := [] }

/-- `showStatus` (identical logic to the Main variant). -/
def showStatus (message : String) (type : StatusType) (s : EditorState) : EditorState :=
  { s with
    cleared := match s.pendingTimer with
      | some tid => tid :: s.cleared
      | none => s.cleared
    status := some { message := message, type := type }
    pendingTimer := some s.nextTimer
    nextTimer := s.nextTimer + 1 }

/-- A scheduled dismissal timer elapsing. -/
def fireTimer (tid : Nat) (s : EditorState) : EditorState :=
  if tid ∈ s.cleared ∨ s.nextTimer ≤ tid then s else { s with status := none }

/-- `handleBaseImageUpload` (identical logic to the Main variant). -/
def handleBaseImageUpload (isImageFile : Bool) (dataUrl : String) (w h : ℚ)
    (s : EditorState) : EditorState :=
  if isImageFile = false then
    showStatus "Please select an image file" .error s
  else
    { showStatus "Image loaded successfully" .success s with
      baseImage := dataUrl
      originalImageSize := { width := w, height := h } }

/-- `handleMouseDown`. -/
def handleMouseDown (clientX clientY : ℚ) (s : EditorState) : EditorState :=
  { s with
    isDragging := true
    dragStart := { x := clientX - s.transform.position.x, y := clientY - s.transform.position.y } }

/-- `handleMouseMove`. -/
def handleMouseMove (clientX clientY : ℚ) (s : EditorState) : EditorState :=
  if s.isDragging then
    { s with transform := { s.transform with
        position := { x := clientX - s.dragStart.x, y := clientY - s.dragStart.y } } }
  else s

/-- `handleMouseUp`. -/
def handleMouseUp (s : EditorState) : EditorState :=
  { s with isDragging := false }

/-- `handleTouchStart`. -/
def handleTouchStart (touches : List Position) (s : EditorState) : EditorState :=
  match touches with
  | [touch] =>
    { s with
      isDragging := true
      dragStart := { x := touch.x - s.transform.position.x, y := touch.y - s.transform.position.y } }
  | _ => s

/-- `handleTouchMove`. -/
def handleTouchMove (touches : List Position) (s : EditorState) : EditorState :=
  match touches with
  | [touch] =>
    if s.isDragging then
      { s with transform := { s.transform with
          position := { x := touch.x - s.dragStart.x, y := touch.y - s.dragStart.y } } }
    else s
  | _ => s

/-- `handleTouchEnd`. -/
def handleTouchEnd (s : EditorState) : EditorState :=
  { s with isDragging := false }

/-- `handleRotate`. -/
def handleRotate (direction : RotDir) (s : EditorState) : EditorState :=
  { s with transform := rotateTransform direction s.transform }

/-- `handleScale`. -/
def handleScale (direction : ScaleDir) (s : EditorState) : EditorState :=
  { s with transform := scaleTransform direction s.transform }

/-- `handleFlip` in V2: `newFlipped = !prev`, then
`setCurrentHatImage(newFlipped ? leftImage : rightImage)`. -/
def handleFlip (s : EditorState) : EditorState :=
  { s with
    isFlipped := !s.isFlipped
    currentHatImage := if !s.isFlipped then .leftImage else .rightImage }

/-- `handleReset` in V2: restores the transform, clears `isFlipped` and
restores the right-facing hat asset. -/
def handleReset (s : EditorState) : EditorState :=
  { s with
    transform :=
      { position := { x := 0, y := 0 }, rotation := 0, scale := 1, flipX := false }
    isFlipped := false
    currentHatImage := .rightImage }

/-- Overlay export ops (part_002 first component): same pipeline as Main but
with a 400 px display footprint. -/
def exportOverlayOps (t : Transform) (centerX centerY scaleX scaleY hatW hatH : ℚ) :
    List CanvasOp :=
  let overlayWidth := 400 * scaleX
  let overlayHeight := overlayWidth * hatH / hatW
  [CanvasOp.translate (centerX + t.position.x * scaleX) (centerY + t.position.y * scaleY),
   CanvasOp.rotate (t.rotation / 180)]
  ++ (if t.flipX then [CanvasOp.scaleOp (-1) 1] else [])
  ++ [CanvasOp.scaleOp t.scale t.scale,
      CanvasOp.drawImg (-overlayWidth / 2) (-overlayHeight / 2) overlayWidth overlayHeight]

/-- The outcome of one V2 `handleSave` call. -/
structure SaveResult where
  state : EditorState
  download : Option String
  canvasOps : List CanvasOp

/-- `handleSave` (V2): identical guard and pipeline, download filename
`sweetychat-hat.png`. -/
def handleSave (overlayRefSet containerRefSet ctxOk : Bool)
    (containerWidth containerHeight hatW hatH : ℚ) (s : EditorState) : SaveResult :=
  if s.baseImage = "" ∨ overlayRefSet = false ∨ containerRefSet = false then
    { state := showStatus "Please upload an image first" .error s
      download := none
      canvasOps := [] }
  else if ctxOk = false then
    { state := showStatus "Error saving image" .error s
      download := none
      canvasOps := [] }
  else
    let canvasWidth := s.originalImageSize.width
    let canvasHeight := s.originalImageSize.height
    let containerAspect := containerWidth / containerHeight
    let imageAspect := canvasWidth / canvasHeight
    let displayedWidth :=
      if containerAspect > imageAspect then containerHeight * imageAspect else containerWidth
    let displayedHeight :=
      if containerAspect > imageAspect then containerHeight else containerWidth / imageAspect
    let scaleX := canvasWidth / displayedWidth
    let scaleY := canvasHeight / displayedHeight
    { state := showStatus "Image saved successfully" .success s
      download := some "sweetychat-hat.png"
      canvasOps :=
        CanvasOp.drawImg 0 0 canvasWidth canvasHeight
        :: exportOverlayOps s.transform (canvasWidth / 2) (canvasHeight / 2) scaleX scaleY hatW hatH }

/-- Every user-visible event of the V2 variant (no tape button). -/
inductive Act where
  | upload (isImageFile : Bool) (dataUrl : String) (w h : ℚ)
  | rotateAct (d : RotDir)
  | scaleAct (d : ScaleDir)
  | flipAct
  | resetAct
  | mouseDown (x y : ℚ)
  | mouseMove (x y : ℚ)
  | mouseUp
  | touchStart (touches : List Position)
  | touchMove (touches : List Position)
  | touchEnd
  | saveAct (overlayRefSet containerRefSet ctxOk : Bool) (cw ch hw hh : ℚ)
  | timerFire (tid : Nat)

/-- The event dispatcher of the V2 variant. -/
def step (s : EditorState) : Act → EditorState
  | .upload ok url w h => handleBaseImageUpload ok url w h s
  | .rotateAct d => handleRotate d s
  | .scaleAct d => handleScale d s
  | .flipAct => handleFlip s
  | .resetAct => handleReset s
  | .mouseDown x y => handleMouseDown x y s
  | .mouseMove x y => handleMouseMove x y s
  | .mouseUp => handleMouseUp s
  | .touchStart ts => handleTouchStart ts s
  | .touchMove ts => handleTouchMove ts s
  | .touchEnd => handleTouchEnd s
  | .saveAct a b c cw ch hw hh => (handleSave a b c cw ch hw hh s).state
  | .timerFire tid => fireTimer tid s

/-- States reachable in the V2 variant. -/
inductive Reachable : EditorState → Prop where
  | init : Reachable initState
  | next {s : EditorState} (a : Act) : Reachable s → Reachable (step s a)

end V2

namespace V3

/-- The hat assets imported by the second component of src/unnamed/part_002
(lines 384-827): right.png, left.png. -/
inductive HatImage where
  | rightImage
  | leftImage
deriving DecidableEq, Repr

/-- The component state of the V3 variant (second component of
src/unnamed/part_002, lines 384-827): like V2 plus the `showModal` flag set
by `handleWindowControl`.  `modalTimers` records the ids of the untracked
2-second modal-dismiss timeouts (the code never clears them). -/
structure EditorState where
  baseImage : String
  currentHatImage : HatImage
  isFlipped : Bool
  transform : Transform
  originalImageSize : ImgSize
  status : Option Status
  showModal : Bool
  isDragging : Bool
  dragStart : Position
  pendingTimer : Option Nat
  nextTimer : Nat
  cleared : List Nat
  modalTimers : List Nat
deriving DecidableEq, Repr

/-- The initial component state. -/
def initState : EditorState :=
  { baseImage := ""
    currentHatImage := .rightImage
    isFlipped := false
    transform := initialTransform
    originalImageSize := { width := 0, height := 0 }
    status := none
    showModal := false
    isDragging := false
    dragStart := { x := 0, y := 0 }
    pendingTimer := none
    nextTimer := 0
    cleared := []
    modalTimers := [] }

/-- `showStatus` (identical logic to the Main variant). -/
def showStatus (message : String) (type : StatusType) (s : EditorState) : EditorState :=
  { s with
    cleared := match s.pendingTimer with
      | some tid => tid :: s.cleared
      | none => s.cleared
    status := some { message := message, type := type }
    pendingTimer := some s.nextTimer
    nextTimer := s.nextTimer + 1 }

/-- A scheduled status-dismissal timer elapsing. -/
def fireTimer (tid : Nat) (s : EditorState) : EditorState :=
  if tid ∈ s.cleared ∨ s.nextTimer ≤ tid then s else { s with status := none }

/-- `handleWindowControl`: shows the modal and schedules an untracked
2-second timeout that will hide it. -/
def handleWindowControl (s : EditorState) : EditorState :=
  { s with
    showModal := true
    modalTimers := s.nextTimer :: s.modalTimers
    nextTimer := s.nextTimer + 1 }

/-- One of the untracked modal timeouts elapsing: `setShowModal(false)`. -/
def fireModalTimer (tid : Nat) (s : EditorState) : EditorState :=
  if tid ∈ s.modalTimers then { s with showModal := false } else s

/-- `handleBaseImageUpload` (identical logic to the Main variant). -/
def handleBaseImageUpload (isImageFile : Bool) (dataUrl : String) (w h : ℚ)
    (s : EditorState) : EditorState :=
  if isImageFile = false then
    showStatus "Please select an image file" .error s
  else
    { showStatus "Image loaded successfully" .success s with
      baseImage := dataUrl
      originalImageSize := { width := w, height := h } }

/-- `handleMouseDown`. -/
def handleMouseDown (clientX clientY : ℚ) (s : EditorState) : EditorState :=
  { s with
    isDragging := true
    dragStart := { x := clientX - s.transform.position.x, y := clientY - s.transform.position.y } }

/-- `handleMouseMove`. -/
def handleMouseMove (clientX clientY : ℚ) (s : EditorState) : EditorState :=
  if s.isDragging then
    { s with transform := { s.transform with
        position := { x := clientX - s.dragStart.x, y := clientY - s.dragStart.y } } }
  else s

/-- `handleMouseUp`. -/
def handleMouseUp (s : EditorState) : EditorState :=
  { s with isDragging := false }

/-- `handleTouchStart`. -/
def handleTouchStart (touches : List Position) (s : EditorState) : EditorState :=
  match touches with
  | [touch] =>
    { s with
      isDragging := true
      dragStart := { x := touch.x - s.transform.position.x, y := touch.y - s.transform.position.y } }
  | _ => s

/-- `handleTouchMove`. -/
def handleTouchMove (touches : List Position) (s : EditorState) : EditorState :=
  match touches with
  | [touch] =>
    if s.isDragging then
      { s with transform := { s.transform with
          position := { x := touch.x - s.dragStart.x, y := touch.y - s.dragStart.y } } }
    else s
  | _ => s

/-- `handleTouchEnd`. -/
def handleTouchEnd (s : EditorState) : EditorState :=
  { s with isDragging := false }

/-- `handleRotate`. -/
def handleRotate (direction : RotDir) (s : EditorState) : EditorState :=
  { s with transform := rotateTransform direction s.transform }

/-- `handleScale`. -/
def handleScale (direction : ScaleDir) (s : EditorState) : EditorState :=
  { s with transform := scaleTransform direction s.transform }

/-- `handleFlip` in V3 (same as the V2 form): `newFlipped = !prev`, then
`setCurrentHatImage(newFlipped ? leftImage : rightImage)`. -/
def handleFlip (s : EditorState) : EditorState :=
  { s with
    isFlipped := !s.isFlipped
    currentHatImage := if !s.isFlipped then .leftImage else .rightImage }

/-- `handleReset` in V3: restores the transform, clears `isFlipped` and
restores the right-facing hat asset. -/
def handleReset (s : EditorState) : EditorState :=
  { s with
    transform :=
      { position := { x := 0, y := 0 }, rotation := 0, scale := 1, flipX := false }
    isFlipped := false
    currentHatImage := .rightImage }

/-- Overlay export ops (part_002 second component): same pipeline as Main,
but the display footprint is the live rendered overlay width
(`overlayRect.width`, a DOM measurement taken at save time and passed in
here as `overlayRectWidth`). -/
def exportOverlayOps (t : Transform)
    (centerX centerY scaleX scaleY overlayRectWidth hatW hatH : ℚ) :
    List CanvasOp :=
  let overlayWidth := overlayRectWidth * scaleX
  let overlayHeight := overlayWidth * hatH / hatW
  [CanvasOp.translate (centerX + t.position.x * scaleX) (centerY + t.position.y * scaleY),
   CanvasOp.rotate (t.rotation / 180)]
  ++ (if t.flipX then [CanvasOp.scaleOp (-1) 1] else [])
  ++ [CanvasOp.scaleOp t.scale t.scale,
      CanvasOp.drawImg (-overlayWidth / 2) (-overlayHeight / 2) overlayWidth overlayHeight]

/-- The outcome of one V3 `handleSave` call. -/
structure SaveResult where
  state : EditorState
  download : Option String
  canvasOps : List CanvasOp

/-- `handleSave` (V3): identical guard and pipeline, live overlay footprint,
download filename `sweetychat-hat.png`. -/
def handleSave (overlayRefSet containerRefSet ctxOk : Bool)
    (containerWidth containerHeight overlayRectWidth hatW hatH : ℚ)
    (s : EditorState) : SaveResult :=
  if s.baseImage = "" ∨ overlayRefSet = false ∨ containerRefSet = false then
    { state := showStatus "Please upload an image first" .error s
      download := none
      canvasOps := [] }
  else if ctxOk = false then
    { state := showStatus "Error saving image" .error s
      download := none
      canvasOps := [] }
  else
    let canvasWidth := s.originalImageSize.width
    let canvasHeight := s.originalImageSize.height
    let containerAspect := containerWidth / containerHeight
    let imageAspect := canvasWidth / canvasHeight
    let displayedWidth :=
      if containerAspect > imageAspect then containerHeight * imageAspect else containerWidth
    let displayedHeight :=
      if containerAspect > imageAspect then containerHeight else containerWidth / imageAspect
    let scaleX := canvasWidth / displayedWidth
    let scaleY := canvasHeight / displayedHeight
    { state := showStatus "Image saved successfully" .success s
      download := some "sweetychat-hat.png"
      canvasOps :=
        CanvasOp.drawImg 0 0 canvasWidth canvasHeight
        :: exportOverlayOps s.transform (canvasWidth / 2) (canvasHeight / 2) scaleX scaleY
            overlayRectWidth hatW hatH }

/-- Every user-visible event of the V3 variant (window-control button and
modal timeouts included). -/
inductive Act where
  | upload (isImageFile : Bool) (dataUrl : String) (w h : ℚ)
  | rotateAct (d : RotDir)
  | scaleAct (d : ScaleDir)
  | flipAct
  | resetAct
  | windowControl
  | mouseDown (x y : ℚ)
  | mouseMove (x y : ℚ)
  | mouseUp
  | touchStart (touches : List Position)
  | touchMove (touches : List Position)
  | touchEnd
  | saveAct (overlayRefSet containerRefSet ctxOk : Bool) (cw ch orw hw hh : ℚ)
  | timerFire (tid : Nat)
  | modalTimerFire (tid : Nat)

/-- The event dispatcher of the V3 variant. -/
def step (s : EditorState) : Act → EditorState
  | .upload ok url w h => handleBaseImageUpload ok url w h s
  | .rotateAct d => handleRotate d s
  | .scaleAct d => handleScale d s
  | .flipAct => handleFlip s
  | .resetAct => handleReset s
  | .windowControl => handleWindowControl s
  | .mouseDown x y => handleMouseDown x y s
  | .mouseMove x y => handleMouseMove x y s
  | .mouseUp => handleMouseUp s
  | .touchStart ts => handleTouchStart ts s
  | .touchMove ts => handleTouchMove ts s
  | .touchEnd => handleTouchEnd s
  | .saveAct a b c cw ch orw hw hh => (handleSave a b c cw ch orw hw hh s).state
  | .timerFire tid => fireTimer tid s
  | .modalTimerFire tid => fireModalTimer tid s

/-- States reachable in the V3 variant. -/
inductive Reachable : EditorState → Prop where
  | init : Reachable initState
  | next {s : EditorState} (a : Act) : Reachable s → Reachable (step s a)

end V3

namespace V4

/-- The orange/blue hat color selector of the third component of
src/unnamed/part_002 (lines 828-1296); orange is the default. -/
inductive HatColor where
  | orange
  | blue
deriving DecidableEq, Repr

/-- The eight hat assets imported by the third component of
src/unnamed/part_002: orange-right.png, orange-left.png,
orange-right-tape.png, orange-left-tape.png and the four blue variants. -/
inductive HatImage where
  | orangeRightImage
  | orangeLeftImage
  | orangeRightTapeImage
  | orangeLeftTapeImage
  | blueRightImage
  | blueLeftImage
  | blueRightTapeImage
  | blueLeftTapeImage
deriving DecidableEq, Repr

/-- `getHatImage`: the pure resolution of color, orientation and tape to one
hat asset. -/
def getHatImage (color : HatColor) (flipped tape : Bool) : HatImage :=
  match color with
  | .orange =>
    if flipped then
      (if tape then .orangeLeftTapeImage else .orangeLeftImage)
    else
      (if tape then .orangeRightTapeImage else .orangeRightImage)
  | .blue =>
    if flipped then
      (if tape then .blueLeftTapeImage else .blueLeftImage)
    else
      (if tape then .blueRightTapeImage else .blueRightImage)

/-- The component state of the V4 variant (third component of
src/unnamed/part_002, lines 828-1296): a `hatColor` selector on top of the
flip and tape toggles. -/
structure EditorState where
  baseImage : String
  hatColor : HatColor
  currentHatImage : HatImage
  hasTape : Bool
  isFlipped : Bool
  transform : Transform
  originalImageSize : ImgSize
  status : Option Status
  isDragging : Bool
  dragStart : Position
  pendingTimer : Option Nat
  nextTimer : Nat
  cleared : List Nat
deriving DecidableEq, Repr

/-- The initial component state: orange is the default color. -/
def initState : EditorState :=
  { baseImage := ""
    hatColor := .orange
    currentHatImage := .orangeRightImage
    hasTape := false
    isFlipped := false
    transform := initialTransform
    originalImageSize := { width := 0, height := 0 }
    status := none
    isDragging := false
    dragStart := { x := 0, y := 0 }
    pendingTimer := none
    nextTimer := 0
    cleared := [] }

/-- `showStatus` (identical logic to the Main variant). -/
def showStatus (message : String) (type : StatusType) (s : EditorState) : EditorState :=
  { s with
    cleared := match s.pendingTimer with
      | some tid => tid :: s.cleared
      | none => s.cleared
    status := some { message := message, type := type }
    pendingTimer := some s.nextTimer
    nextTimer := s.nextTimer + 1 }

/-- A scheduled dismissal timer elapsing. -/
def fireTimer (tid : Nat) (s : EditorState) : EditorState :=
  if tid ∈ s.cleared ∨ s.nextTimer ≤ tid then s else { s with status := none }

/-- `handleBaseImageUpload` (identical logic to the Main variant). -/
def handleBaseImageUpload (isImageFile : Bool) (dataUrl : String) (w h : ℚ)
    (s : EditorState) : EditorState :=
  if isImageFile = false then
    showStatus "Please select an image file" .error s
  else
    { showStatus "Image loaded successfully" .success s with
      baseImage := dataUrl
      originalImageSize := { width := w, height := h } }

/-- `handleMouseDown`. -/
def handleMouseDown (clientX clientY : ℚ) (s : EditorState) : EditorState :=
  { s with
    isDragging := true
    dragStart := { x := clientX - s.transform.position.x, y := clientY - s.transform.position.y } }

/-- `handleMouseMove`. -/
def handleMouseMove (clientX clientY : ℚ) (s : EditorState) : EditorState :=
  if s.isDragging then
    { s with transform := { s.transform with
        position := { x := clientX - s.dragStart.x, y := clientY - s.dragStart.y } } }
  else s

/-- `handleMouseUp`. -/
def handleMouseUp (s : EditorState) : EditorState :=
  { s with isDragging := false }

/-- `handleTouchStart`. -/
def handleTouchStart (touches : List Position) (s : EditorState) : EditorState :=
  match touches with
  | [touch] =>
    { s with
      isDragging := true
      dragStart := { x := touch.x - s.transform.position.x, y := touch.y - s.transform.position.y } }
  | _ => s

/-- `handleTouchMove`. -/
def handleTouchMove (touches : List Position) (s : EditorState) : EditorState :=
  match touches with
  | [touch] =>
    if s.isDragging then
      { s with transform := { s.transform with
          position := { x := touch.x - s.dragStart.x, y := touch.y - s.dragStart.y } } }
    else s
  | _ => s

/-- `handleTouchEnd`. -/
def handleTouchEnd (s : EditorState) : EditorState :=
  { s with isDragging := false }

/-- `handleRotate`. -/
def handleRotate (direction : RotDir) (s : EditorState) : EditorState :=
  { s with transform := rotateTransform direction s.transform }

/-- `handleScale`. -/
def handleScale (direction : ScaleDir) (s : EditorState) : EditorState :=
  { s with transform := scaleTransform direction s.transform }

/-- `handleFlip` in V4: `newFlipped = !prev`, then
`setCurrentHatImage(getHatImage(hatColor, newFlipped, hasTape))`. -/
def handleFlip (s : EditorState) : EditorState :=
  { s with
    isFlipped := !s.isFlipped
    currentHatImage := getHatImage s.hatColor (!s.isFlipped) s.hasTape }

/-- `handleTape` in V4: `newTape = !prev`, then
`setCurrentHatImage(getHatImage(hatColor, isFlipped, newTape))`. -/
def handleTape (s : EditorState) : EditorState :=
  { s with
    hasTape := !s.hasTape
    currentHatImage := getHatImage s.hatColor s.isFlipped (!s.hasTape) }

/-- `handleColorChange`: selects the color and re-resolves the asset with
the current flip and tape states. -/
def handleColorChange (newColor : HatColor) (s : EditorState) : EditorState :=
  { s with
    hatColor := newColor
    currentHatImage := getHatImage newColor s.isFlipped s.hasTape }

/-- `handleReset` in V4: restores the identity transform and clears the flip
and tape toggles, but keeps the selected `hatColor` — the asset becomes
`getHatImage(hatColor, false, false)`, i.e. the right-facing tapeless hat in
the current color, not necessarily the (orange) default asset. -/
def handleReset (s : EditorState) : EditorState :=
  { s with
    transform :=
      { position := { x := 0, y := 0 }, rotation := 0, scale := 1, flipX := false }
    hasTape := false
    isFlipped := false
    currentHatImage := getHatImage s.hatColor false false }

/-- Overlay export ops (part_002 third component): same pipeline as Main but
with a 400 px display footprint. -/
def exportOverlayOps (t : Transform) (centerX centerY scaleX scaleY hatW hatH : ℚ) :
    List CanvasOp :=
  let overlayWidth := 400 * scaleX
  let overlayHeight := overlayWidth * hatH / hatW
  [CanvasOp.translate (centerX + t.position.x * scaleX) (centerY + t.position.y * scaleY),
   CanvasOp.rotate (t.rotation / 180)]
  ++ (if t.flipX then [CanvasOp.scaleOp (-1) 1] else [])
  ++ [CanvasOp.scaleOp t.scale t.scale,
      CanvasOp.drawImg (-overlayWidth / 2) (-overlayHeight / 2) overlayWidth overlayHeight]

/-- The outcome of one V4 `handleSave` call. -/
structure SaveResult where
  state : EditorState
  download : Option String
  canvasOps : List CanvasOp

/-- `handleSave` (V4): identical guard and pipeline, download filename
`eliza-hat.png`. -/
def handleSave (overlayRefSet containerRefSet ctxOk : Bool)
    (containerWidth containerHeight hatW hatH : ℚ) (s : EditorState) : SaveResult :=
  if s.baseImage = "" ∨ overlayRefSet = false ∨ containerRefSet = false then
    { state := showStatus "Please upload an image first" .error s
      download := none
      canvasOps := [] }
  else if ctxOk = false then
    { state := showStatus "Error saving image" .error s
      download := none
      canvasOps := [] }
  else
    let canvasWidth := s.originalImageSize.width
    let canvasHeight := s.originalImageSize.height
    let containerAspect := containerWidth / containerHeight
    let imageAspect := canvasWidth / canvasHeight
    let displayedWidth :=
      if containerAspect > imageAspect then containerHeight * imageAspect else containerWidth
    let displayedHeight :=
      if containerAspect > imageAspect then containerHeight else containerWidth / imageAspect
    let scaleX := canvasWidth / displayedWidth
    let scaleY := canvasHeight / displayedHeight
    { state := showStatus "Image saved successfully" .success s
      download := some "eliza-hat.png"
      canvasOps :=
        CanvasOp.drawImg 0 0 canvasWidth canvasHeight
        :: exportOverlayOps s.transform (canvasWidth / 2) (canvasHeight / 2) scaleX scaleY hatW hatH }

/-- Every user-visible event of the V4 variant (color selector included). -/
inductive Act where
  | upload (isImageFile : Bool) (dataUrl : String) (w h : ℚ)
  | rotateAct (d : RotDir)
  | scaleAct (d : ScaleDir)
  | flipAct
  | tapeAct
  | colorChange (c : HatColor)
  | resetAct
  | mouseDown (x y : ℚ)
  | mouseMove (x y : ℚ)
  | mouseUp
  | touchStart (touches : List Position)
  | touchMove (touches : List Position)
  | touchEnd
  | saveAct (overlayRefSet containerRefSet ctxOk : Bool) (cw ch hw hh : ℚ)
  | timerFire (tid : Nat)

/-- The event dispatcher of the V4 variant. -/
def step (s : EditorState) : Act → EditorState
  | .upload ok url w h => handleBaseImageUpload ok url w h s
  | .rotateAct d => handleRotate d s
  | .scaleAct d => handleScale d s
  | .flipAct => handleFlip s
  | .tapeAct => handleTape s
  | .colorChange c => handleColorChange c s
  | .resetAct => handleReset s
  | .mouseDown x y => handleMouseDown x y s
  | .mouseMove x y => handleMouseMove x y s
  | .mouseUp => handleMouseUp s
  | .touchStart ts => handleTouchStart ts s
  | .touchMove ts => handleTouchMove ts s
  | .touchEnd => handleTouchEnd s
  | .saveAct a b c cw ch hw hh => (handleSave a b c cw ch hw hh s).state
  | .timerFire tid => fireTimer tid s

/-- States reachable in the V4 variant. -/
inductive Reachable : EditorState → Prop where
  | init : Reachable initState
  | next {s : EditorState} (a : Act) : Reachable s → Reachable (step s a)

end V4

/-! Affine semantics of the transform pipelines.  Every pipeline in this
program is a translation followed by one rotation followed by axis-aligned
scales, so its composite is represented exactly by the normal form
`translate (tx, ty) ∘ R(rotCoeff * pi) ∘ diag (sx, sy)`, with all four
numbers rational.  The evaluator returns `none` if a pipeline ever leaves
this family, so a `some` result is a faithful description of the composite
affine map. -/

/-- Normal form of a linear 2D map: rotation by `rotCoeff * pi` radians
followed by the axis-aligned scale `diag (sx, sy)`. -/
structure LinNF where
  rotCoeff : ℚ
  sx : ℚ
  sy : ℚ
deriving DecidableEq, Repr

/-- Normal form of an affine 2D map: translation by `(tx, ty)` followed by
the linear part `lin`. -/
structure AffNF where
  tx : ℚ
  ty : ℚ
  lin : LinNF
deriving DecidableEq, Repr

/-- The identity affine map in normal form. -/
def idAff : AffNF := { tx := 0, ty := 0, lin := { rotCoeff := 0, sx := 1, sy := 1 } }

/-- Post-compose one canvas call onto the current transform, in canvas CTM
semantics (each context call multiplies on the right).  `none` when the
composite is not representable in the normal form. -/
def affStep : Option AffNF → CanvasOp → Option AffNF
  | some nf, .translate x y =>
      if nf.lin = { rotCoeff := 0, sx := 1, sy := 1 } then
        some { nf with tx := nf.tx + x, ty := nf.ty + y }
      else none
  | some nf, .rotate c =>
      if nf.lin.sx = 1 ∧ nf.lin.sy = 1 then
        some { nf with lin := { rotCoeff := nf.lin.rotCoeff + c, sx := 1, sy := 1 } }
      else none
  | some nf, .scaleOp a b =>
      some { nf with lin := { nf.lin with sx := nf.lin.sx * a, sy := nf.lin.sy * b } }
  | some nf, .drawImg _ _ _ _ => some nf
  | none, _ => none

/-- The composite affine map of a canvas-op pipeline. -/
def canvasAff (ops : List CanvasOp) : Option AffNF := ops.foldl affStep (some idAff)

/-- Post-compose one CSS transform entry onto the current linear part (CSS
transform lists also compose left to right).  Translation entries do not
change the linear part. -/
def cssLinStep : Option LinNF → CssOp → Option LinNF
  | some nf, .translatePercent _ _ => some nf
  | some nf, .translatePx _ _ => some nf
  | some nf, .rotateDeg d =>
      if nf.sx = 1 ∧ nf.sy = 1 then
        some { rotCoeff := nf.rotCoeff + d / 180, sx := 1, sy := 1 }
      else none
  | some nf, .scaleXY a b => some { nf with sx := nf.sx * a, sy := nf.sy * b }
  | none, _ => none

/-- The composite linear part of a CSS transform list. -/
def cssLin (ops : List CssOp) : Option LinNF :=
  ops.foldl cssLinStep (some { rotCoeff := 0, sx := 1, sy := 1 })

namespace Main

/-- The fold of `handleMouseMove` over a list of mouse-move contact points. -/
def runMouseMoves (s : EditorState) (moves : List (ℚ × ℚ)) : EditorState :=
  moves.foldl (fun st p => handleMouseMove p.1 p.2 st) s

/-- The fold of `handleTouchMove` over a list of single-contact touch-move
events. -/
def runTouchMoves (s : EditorState) (moves : List (ℚ × ℚ)) : EditorState :=
  moves.foldl (fun st p => handleTouchMove [{ x := p.1, y := p.2 }] st) s

/-- The pure flip/tape-to-asset resolution implicit in the Main variant's
handlers. -/
def resolveHat (flipped tape : Bool) : HatImage :=
  if flipped then (if tape then .leftTapeImage else .leftImage)
  else (if tape then .rightTapeImage else .rightImage)

end Main

/-! Helper lemmas. -/

/-- One scale action always lands in the clamp interval. -/
lemma scaleTransform_bounds (d : ScaleDir) (t : Transform) :
    0.1 ≤ (scaleTransform d t).scale ∧ (scaleTransform d t).scale ≤ 7 := by
  unfold scaleTransform
  exact ⟨le_max_left _ _, max_le (by norm_num) (min_le_left _ _)⟩

/-- Folding scale actions preserves the clamp interval. -/
lemma foldScale_bounds :
    ∀ (ds : List ScaleDir) (t : Transform), 0.1 ≤ t.scale → t.scale ≤ 7 →
      0.1 ≤ (ds.foldl (fun tr d => scaleTransform d tr) t).scale ∧
      (ds.foldl (fun tr d => scaleTransform d tr) t).scale ≤ 7 := by
  intro ds
  induction ds with
  | nil => intro t h1 h2; exact ⟨h1, h2⟩
  | cons d rest ih =>
    intro t _ _
    have hb := scaleTransform_bounds d t
    simpa [List.foldl_cons] using ih (scaleTransform d t) hb.1 hb.2

/-- N rotate-right actions add 15 degrees each. -/
lemma foldRotate_right (n : ℕ) : ∀ t : Transform,
    ((List.replicate n RotDir.right).foldl (fun tr d => rotateTransform d tr) t).rotation
      = t.rotation + 15 * n := by
  induction n with
  | zero => intro t; simp
  | succ k ih =>
    intro t
    rw [List.replicate_succ, List.foldl_cons, ih]
    show (rotateTransform .right t).rotation + 15 * (k : ℚ) = _
    unfold rotateTransform
    push_cast
    ring

/-- N rotate-left actions subtract 15 degrees each. -/
lemma foldRotate_left (n : ℕ) : ∀ t : Transform,
    ((List.replicate n RotDir.left).foldl (fun tr d => rotateTransform d tr) t).rotation
      = t.rotation - 15 * n := by
  induction n with
  | zero => intro t; simp
  | succ k ih =>
    intro t
    rw [List.replicate_succ, List.foldl_cons, ih]
    show (rotateTransform .left t).rotation - 15 * (k : ℚ) = _
    unfold rotateTransform
    push_cast
    ring

/-! The claims. -/

/-- C1 counterexample: the claim fails on two variants.  In the part_001
variant, after one flip the reset action does not restore the default hat
asset — the state after flip is reachable, the default asset is the
right-facing hat, yet reset leaves the left-facing hat selected.  In the
third component of part_002, after selecting the blue color the reset action
keeps the color — the state after the color change is reachable, the default
asset is the orange right-facing hat, yet reset yields the blue right-facing
hat. -/
theorem c1_reset_counterexample :
    (V1.Reachable (V1.handleFlip V1.initState) ∧
      V1.initState.currentHatImage = V1.HatImage.rightImage ∧
      (V1.handleReset (V1.handleFlip V1.initState)).currentHatImage =
        V1.HatImage.leftImage) ∧
    (V4.Reachable (V4.handleColorChange .blue V4.initState) ∧
      V4.initState.currentHatImage = V4.HatImage.orangeRightImage ∧
      (V4.handleReset (V4.handleColorChange .blue V4.initState)).currentHatImage =
        V4.HatImage.blueRightImage) := by
  refine ⟨⟨V1.Reachable.next .flipAct V1.Reachable.init, rfl, ?_⟩,
    ⟨V4.Reachable.next (.colorChange .blue) V4.Reachable.init, rfl, ?_⟩⟩
  · decide
  · decide

/-- C1 (amended): in the PhotoEditor.tsx variant and the first two
components of part_002, reset from any state yields exactly the default
Transform and the default hat asset and clears the toggles, and reset is
idempotent.  In the part_001 variant, reset yields the default Transform and
is idempotent, but leaves the selected hat asset exactly as it was.  In the
third component of part_002, reset yields the default Transform, clears the
flip and tape toggles and is idempotent, but keeps the selected hat color:
the asset becomes the right-facing tapeless hat in the current color, which
is the default asset only when the color is still orange. -/
theorem c1_reset_amended :
    (∀ s : Main.EditorState,
      (Main.handleReset s).transform = initialTransform ∧
      (Main.handleReset s).currentHatImage = Main.HatImage.rightImage ∧
      (Main.handleReset s).hasTape = false ∧
      (Main.handleReset s).isFlipped = false ∧
      Main.handleReset (Main.handleReset s) = Main.handleReset s) ∧
    (∀ s : V2.EditorState,
      (V2.handleReset s).transform = initialTransform ∧
      (V2.handleReset s).currentHatImage = V2.HatImage.rightImage ∧
      (V2.handleReset s).isFlipped = false ∧
      V2.handleReset (V2.handleReset s) = V2.handleReset s) ∧
    (∀ s : V3.EditorState,
      (V3.handleReset s).transform = initialTransform ∧
      (V3.handleReset s).currentHatImage = V3.HatImage.rightImage ∧
      (V3.handleReset s).isFlipped = false ∧
      V3.handleReset (V3.handleReset s) = V3.handleReset s) ∧
    (∀ s : V1.EditorState,
      (V1.handleReset s).transform = initialTransform ∧
      (V1.handleReset s).currentHatImage = s.currentHatImage ∧
      V1.handleReset (V1.handleReset s) = V1.handleReset s) ∧
    (∀ s : V4.EditorState,
      (V4.handleReset s).transform = initialTransform ∧
      (V4.handleReset s).hasTape = false ∧
      (V4.handleReset s).isFlipped = false ∧
      (V4.handleReset s).hatColor = s.hatColor ∧
      (V4.handleReset s).currentHatImage = V4.getHatImage s.hatColor false false ∧
      V4.handleReset (V4.handleReset s) = V4.handleReset s) :=
  ⟨fun _ => ⟨rfl, rfl, rfl, rfl, rfl⟩,
   fun _ => ⟨rfl, rfl, rfl, rfl⟩,
   fun _ => ⟨rfl, rfl, rfl, rfl⟩,
   fun _ => ⟨rfl, rfl, rfl⟩,
   fun _ => ⟨rfl, rfl, rfl, rfl, rfl, rfl⟩⟩

/-- C3: starting from the default scale 1, every sequence of scale actions
keeps the scale within the clamp interval, and each action multiplies the
current scale by 1.1 (up) or 0.9 (down) clamped into that interval. -/
theorem c3_scale_always_clamped :
    ∀ ds : List ScaleDir,
      (0.1 ≤ (ds.foldl (fun tr d => scaleTransform d tr) initialTransform).scale ∧
        (ds.foldl (fun tr d => scaleTransform d tr) initialTransform).scale ≤ 7) ∧
      (∀ t : Transform,
        (scaleTransform .up t).scale = max 0.1 (min 7 (t.scale * 1.1)) ∧
        (scaleTransform .down t).scale = max 0.1 (min 7 (t.scale * 0.9))) := by
  intro ds
  refine ⟨foldScale_bounds ds initialTransform ?_ ?_, fun t => ⟨rfl, rfl⟩⟩
  · show (0.1 : ℚ) ≤ 1; norm_num
  · show (1 : ℚ) ≤ 7; norm_num

/-- C6: each rotate-right adds exactly 15 degrees, each rotate-left
subtracts exactly 15 degrees, and N rotate-rights followed by N rotate-lefts
return the rotation to its original value exactly. -/
theorem c6_rotation_additive :
    ∀ (n : ℕ) (t : Transform),
      ((List.replicate n RotDir.left).foldl (fun tr d => rotateTransform d tr)
        ((List.replicate n RotDir.right).foldl (fun tr d => rotateTransform d tr) t)).rotation
        = t.rotation ∧
      (rotateTransform .right t).rotation = t.rotation + 15 ∧
      (rotateTransform .left t).rotation = t.rotation - 15 := by
  intro n t
  refine ⟨?_, rfl, ?_⟩
  · rw [foldRotate_left, foldRotate_right]; ring
  · show t.rotation + -15 = t.rotation - 15; ring

/-- C4: calling export with no uploaded base image triggers no download,
issues no canvas operation, shows the upload-first error notification, and
leaves every other piece of editor state unchanged. -/
theorem c4_export_precondition (overlayRefSet containerRefSet ctxOk : Bool)
    (cw ch hw hh : ℚ) (s : Main.EditorState) (hbase : s.baseImage = "") :
    (Main.handleSave overlayRefSet containerRefSet ctxOk cw ch hw hh s).download = none ∧
    (Main.handleSave overlayRefSet containerRefSet ctxOk cw ch hw hh s).canvasOps = [] ∧
    (Main.handleSave overlayRefSet containerRefSet ctxOk cw ch hw hh s).state =
      Main.showStatus "Please upload an image first" .error s ∧
    (Main.handleSave overlayRefSet containerRefSet ctxOk cw ch hw hh s).state.status =
      some { message := "Please upload an image first", type := .error } ∧
    (Main.handleSave overlayRefSet containerRefSet ctxOk cw ch hw hh s).state.transform =
      s.transform ∧
    (Main.handleSave overlayRefSet containerRefSet ctxOk cw ch hw hh s).state.currentHatImage =
      s.currentHatImage ∧
    (Main.handleSave overlayRefSet containerRefSet ctxOk cw ch hw hh s).state.hasTape =
      s.hasTape ∧
    (Main.handleSave overlayRefSet containerRefSet ctxOk cw ch hw hh s).state.isFlipped =
      s.isFlipped ∧
    (Main.handleSave overlayRefSet containerRefSet ctxOk cw ch hw hh s).state.baseImage =
      s.baseImage ∧
    (Main.handleSave overlayRefSet containerRefSet ctxOk cw ch hw hh s).state.originalImageSize =
      s.originalImageSize ∧
    (Main.handleSave overlayRefSet containerRefSet ctxOk cw ch hw hh s).state.isDragging =
      s.isDragging ∧
    (Main.handleSave overlayRefSet containerRefSet ctxOk cw ch hw hh s).state.dragStart =
      s.dragStart := by
  unfold Main.handleSave
  rw [if_pos (Or.inl hbase)]
  exact ⟨rfl, rfl, rfl, rfl, rfl, rfl, rfl, rfl, rfl, rfl, rfl, rfl⟩

/-- C4 witness: the export guard at the initial (no upload) state. -/
theorem c4_export_precondition_witness :
    (Main.handleSave true true true 800 600 10 10 Main.initState).download = none :=
  (c4_export_precondition true true true 800 600 10 10 Main.initState rfl).1

/-- C5: on a state whose cleared and pending timer ids were allocated
earlier (all below `nextTimer`), showing message A displays A and schedules
its dismissal timer; showing B next cancels A's timer before scheduling B's
own fresh timer and displays B; A's cancelled timer firing is a no-op, and
only B's own timer then dismisses the status. -/
theorem c5_status_superseding (s0 : Main.EditorState) (mA mB : String) (tA tB : StatusType)
    (hc : ∀ i ∈ s0.cleared, i < s0.nextTimer)
    (hp : ∀ i, s0.pendingTimer = some i → i < s0.nextTimer) :
    (Main.showStatus mA tA s0).status = some { message := mA, type := tA } ∧
    (Main.showStatus mA tA s0).pendingTimer = some s0.nextTimer ∧
    s0.nextTimer ∈ (Main.showStatus mB tB (Main.showStatus mA tA s0)).cleared ∧
    (Main.showStatus mB tB (Main.showStatus mA tA s0)).pendingTimer =
      some (s0.nextTimer + 1) ∧
    (Main.showStatus mB tB (Main.showStatus mA tA s0)).status =
      some { message := mB, type := tB } ∧
    Main.fireTimer s0.nextTimer (Main.showStatus mB tB (Main.showStatus mA tA s0)) =
      Main.showStatus mB tB (Main.showStatus mA tA s0) ∧
    (Main.fireTimer (s0.nextTimer + 1)
        (Main.fireTimer s0.nextTimer
          (Main.showStatus mB tB (Main.showStatus mA tA s0)))).status = none := by
  have hmemA : s0.nextTimer ∈ (Main.showStatus mB tB (Main.showStatus mA tA s0)).cleared := by
    show s0.nextTimer ∈ s0.nextTimer :: (Main.showStatus mA tA s0).cleared
    exact List.mem_cons_self _ _
  have hfireA :
      Main.fireTimer s0.nextTimer (Main.showStatus mB tB (Main.showStatus mA tA s0)) =
        Main.showStatus mB tB (Main.showStatus mA tA s0) := by
    unfold Main.fireTimer
    rw [if_pos (Or.inl hmemA)]
  have hclr1 : (Main.showStatus mA tA s0).cleared =
      (match s0.pendingTimer with
        | some tid => tid :: s0.cleared
        | none => s0.cleared) := rfl
  have hnotB : ¬(s0.nextTimer + 1 ∈
        (Main.showStatus mB tB (Main.showStatus mA tA s0)).cleared ∨
      (Main.showStatus mB tB (Main.showStatus mA tA s0)).nextTimer ≤ s0.nextTimer + 1) := by
    rintro (hmem | hle)
    · have hmemc : s0.nextTimer + 1 ∈ s0.nextTimer :: (Main.showStatus mA tA s0).cleared :=
        hmem
      have hmem2 : s0.nextTimer + 1 = s0.nextTimer ∨
          s0.nextTimer + 1 ∈ (Main.showStatus mA tA s0).cleared :=
        List.mem_cons.mp hmemc
      rcases hmem2 with heq | hmem3
      · omega
      · rw [hclr1] at hmem3
        rcases hpt : s0.pendingTimer with _ | t
        · rw [hpt] at hmem3
          have := hc _ hmem3
          omega
        · rw [hpt] at hmem3
          have ht := hp t hpt
          rcases List.mem_cons.mp hmem3 with heq2 | hmem4
          · omega
          · have := hc _ hmem4
            omega
    · have hnext : (Main.showStatus mB tB (Main.showStatus mA tA s0)).nextTimer =
          s0.nextTimer + 1 + 1 := rfl
      omega
  refine ⟨rfl, rfl, hmemA, rfl, rfl, hfireA, ?_⟩
  rw [hfireA]
  unfold Main.fireTimer
  rw [if_neg hnotB]

/-- C5 witness: superseding at the initial state. -/
theorem c5_status_superseding_witness :
    (Main.showStatus "A" StatusType.success Main.initState).status =
      some { message := "A", type := StatusType.success } :=
  (c5_status_superseding Main.initState "A" "B" .success .error
    (by intro i hi; simp [Main.initState] at hi)
    (by intro i hi; simp [Main.initState] at hi)).1

/-- C10: a rotate action changes only the rotation field of the Transform, a
scale action only the scale field, and a drag-move only the position field;
the remaining Transform fields are exactly unchanged. -/
theorem c10_transform_frame :
    ∀ (s : Main.EditorState) (dr : RotDir) (dc : ScaleDir) (x y : ℚ),
      ((Main.handleRotate dr s).transform.position = s.transform.position ∧
        (Main.handleRotate dr s).transform.scale = s.transform.scale ∧
        (Main.handleRotate dr s).transform.flipX = s.transform.flipX) ∧
      ((Main.handleScale dc s).transform.position = s.transform.position ∧
        (Main.handleScale dc s).transform.rotation = s.transform.rotation ∧
        (Main.handleScale dc s).transform.flipX = s.transform.flipX) ∧
      ((Main.handleMouseMove x y s).transform.rotation = s.transform.rotation ∧
        (Main.handleMouseMove x y s).transform.scale = s.transform.scale ∧
        (Main.handleMouseMove x y s).transform.flipX = s.transform.flipX) := by
  intro s dr dc x y
  refine ⟨⟨rfl, rfl, rfl⟩, ⟨rfl, rfl, rfl⟩, ?_⟩
  unfold Main.handleMouseMove
  split <;> exact ⟨rfl, rfl, rfl⟩

/-- A mouse-move leaves the drag bookkeeping untouched. -/
lemma handleMouseMove_refs (x y : ℚ) (s : Main.EditorState) :
    (Main.handleMouseMove x y s).dragStart = s.dragStart ∧
    (Main.handleMouseMove x y s).isDragging = s.isDragging := by
  unfold Main.handleMouseMove
  split <;> exact ⟨rfl, rfl⟩

/-- While dragging, the position after a move sequence ending at `(lx, ly)`
is `(lx, ly) - dragStart`, whatever the intermediate moves were. -/
lemma runMouseMoves_last (moves : List (ℚ × ℚ)) (lx ly : ℚ) :
    ∀ s : Main.EditorState, s.isDragging = true →
      (Main.runMouseMoves s (moves ++ [(lx, ly)])).transform.position =
        { x := lx - s.dragStart.x, y := ly - s.dragStart.y } := by
  induction moves with
  | nil =>
    intro s hd
    show (Main.handleMouseMove lx ly s).transform.position = _
    unfold Main.handleMouseMove
    rw [if_pos hd]
  | cons p rest ih =>
    intro s hd
    have hpres := handleMouseMove_refs p.1 p.2 s
    have hstep : Main.runMouseMoves s ((p :: rest) ++ [(lx, ly)]) =
        Main.runMouseMoves (Main.handleMouseMove p.1 p.2 s) (rest ++ [(lx, ly)]) := rfl
    rw [hstep, ih _ (by rw [hpres.2]; exact hd), hpres.1]

/-- A single-contact touch run coincides with the mouse run. -/
lemma runTouchMoves_eq (moves : List (ℚ × ℚ)) :
    ∀ s : Main.EditorState, Main.runTouchMoves s moves = Main.runMouseMoves s moves := by
  induction moves with
  | nil => intro s; rfl
  | cons p rest ih =>
    intro s
    have hstep : Main.runTouchMoves s (p :: rest) =
        Main.runTouchMoves (Main.handleTouchMove [{ x := p.1, y := p.2 }] s) rest := rfl
    rw [hstep, ih]
    rfl

/-- C2: for every drag sequence (drag-start at `(x0, y0)`, any intermediate
moves, a final move at `(lx, ly)`, then drag-end) the final position equals
the last contact point minus the drag-start offset, independent of the
intermediate moves; after drag-end a further move changes nothing; and the
single-contact touch path computes the same final position. -/
theorem c2_drag_tracking :
    ∀ (s : Main.EditorState) (x0 y0 : ℚ) (ms : List (ℚ × ℚ)) (lx ly a b : ℚ),
      (Main.handleMouseUp (Main.runMouseMoves (Main.handleMouseDown x0 y0 s)
          (ms ++ [(lx, ly)]))).transform.position =
        { x := lx - (x0 - s.transform.position.x),
          y := ly - (y0 - s.transform.position.y) } ∧
      Main.handleMouseMove a b
          (Main.handleMouseUp (Main.runMouseMoves (Main.handleMouseDown x0 y0 s)
            (ms ++ [(lx, ly)]))) =
        Main.handleMouseUp (Main.runMouseMoves (Main.handleMouseDown x0 y0 s)
          (ms ++ [(lx, ly)])) ∧
      (Main.handleTouchEnd (Main.runTouchMoves (Main.handleTouchStart [{ x := x0, y := y0 }] s)
          (ms ++ [(lx, ly)]))).transform.position =
        { x := lx - (x0 - s.transform.position.x),
          y := ly - (y0 - s.transform.position.y) } := by
  intro s x0 y0 ms lx ly a b
  have hdown : (Main.handleMouseDown x0 y0 s).isDragging = true := rfl
  have hpos := runMouseMoves_last ms lx ly (Main.handleMouseDown x0 y0 s) hdown
  refine ⟨hpos, ?_, ?_⟩
  · have hnot : (Main.handleMouseUp (Main.runMouseMoves (Main.handleMouseDown x0 y0 s)
        (ms ++ [(lx, ly)]))).isDragging = false := rfl
    unfold Main.handleMouseMove
    rw [if_neg (by rw [hnot]; exact Bool.false_ne_true)]
  · rw [runTouchMoves_eq]
    exact hpos

/-- An upload leaves the toggles, the hat asset and the transform alone. -/
lemma upload_preserves (ok : Bool) (url : String) (w hgt : ℚ) (s : Main.EditorState) :
    (Main.handleBaseImageUpload ok url w hgt s).currentHatImage = s.currentHatImage ∧
    (Main.handleBaseImageUpload ok url w hgt s).isFlipped = s.isFlipped ∧
    (Main.handleBaseImageUpload ok url w hgt s).hasTape = s.hasTape ∧
    (Main.handleBaseImageUpload ok url w hgt s).transform = s.transform := by
  unfold Main.handleBaseImageUpload
  split <;> exact ⟨rfl, rfl, rfl, rfl⟩

/-- A mouse-move leaves the toggles, the hat asset, and the non-position
transform fields alone. -/
lemma mouseMove_preserves (x y : ℚ) (s : Main.EditorState) :
    (Main.handleMouseMove x y s).currentHatImage = s.currentHatImage ∧
    (Main.handleMouseMove x y s).isFlipped = s.isFlipped ∧
    (Main.handleMouseMove x y s).hasTape = s.hasTape ∧
    (Main.handleMouseMove x y s).transform.flipX = s.transform.flipX ∧
    (Main.handleMouseMove x y s).transform.scale = s.transform.scale := by
  unfold Main.handleMouseMove
  split <;> exact ⟨rfl, rfl, rfl, rfl, rfl⟩

/-- A touch-start leaves the toggles, the hat asset and the transform alone. -/
lemma touchStart_preserves (ts : List Position) (s : Main.EditorState) :
    (Main.handleTouchStart ts s).currentHatImage = s.currentHatImage ∧
    (Main.handleTouchStart ts s).isFlipped = s.isFlipped ∧
    (Main.handleTouchStart ts s).hasTape = s.hasTape ∧
    (Main.handleTouchStart ts s).transform = s.transform := by
  unfold Main.handleTouchStart
  split <;> exact ⟨rfl, rfl, rfl, rfl⟩

/-- A touch-move leaves the toggles, the hat asset, and the non-position
transform fields alone. -/
lemma touchMove_preserves (ts : List Position) (s : Main.EditorState) :
    (Main.handleTouchMove ts s).currentHatImage = s.currentHatImage ∧
    (Main.handleTouchMove ts s).isFlipped = s.isFlipped ∧
    (Main.handleTouchMove ts s).hasTape = s.hasTape ∧
    (Main.handleTouchMove ts s).transform.flipX = s.transform.flipX ∧
    (Main.handleTouchMove ts s).transform.scale = s.transform.scale := by
  unfold Main.handleTouchMove
  split
  · split <;> exact ⟨rfl, rfl, rfl, rfl, rfl⟩
  · exact ⟨rfl, rfl, rfl, rfl, rfl⟩

/-- A save leaves the toggles, the hat asset and the transform alone. -/
lemma save_preserves (a b c : Bool) (cw ch hw hh : ℚ) (s : Main.EditorState) :
    ((Main.handleSave a b c cw ch hw hh s).state).currentHatImage = s.currentHatImage ∧
    ((Main.handleSave a b c cw ch hw hh s).state).isFlipped = s.isFlipped ∧
    ((Main.handleSave a b c cw ch hw hh s).state).hasTape = s.hasTape ∧
    ((Main.handleSave a b c cw ch hw hh s).state).transform = s.transform := by
  unfold Main.handleSave
  split
  · exact ⟨rfl, rfl, rfl, rfl⟩
  · split <;> exact ⟨rfl, rfl, rfl, rfl⟩

/-- A timer firing leaves the toggles, the hat asset and the transform alone. -/
lemma fireTimer_preserves (tid : Nat) (s : Main.EditorState) :
    (Main.fireTimer tid s).currentHatImage = s.currentHatImage ∧
    (Main.fireTimer tid s).isFlipped = s.isFlipped ∧
    (Main.fireTimer tid s).hasTape = s.hasTape ∧
    (Main.fireTimer tid s).transform = s.transform := by
  unfold Main.fireTimer
  split <;> exact ⟨rfl, rfl, rfl, rfl⟩

/-- In every reachable Main-variant state the selected hat asset is the one
determined by the flip and tape toggles. -/
lemma hat_consistent : ∀ s : Main.EditorState, Main.Reachable s →
    s.currentHatImage = Main.resolveHat s.isFlipped s.hasTape := by
  intro s h
  induction h with
  | init => rfl
  | next a hr ih =>
    rename_i s'
    cases a with
    | upload ok url w hgt =>
      have hp := upload_preserves ok url w hgt s'
      show (Main.handleBaseImageUpload ok url w hgt s').currentHatImage =
        Main.resolveHat (Main.handleBaseImageUpload ok url w hgt s').isFlipped
          (Main.handleBaseImageUpload ok url w hgt s').hasTape
      rw [hp.1, hp.2.1, hp.2.2.1]
      exact ih
    | rotateAct d => exact ih
    | scaleAct d => exact ih
    | flipAct =>
      cases hf : s'.isFlipped <;> cases ht : s'.hasTape <;>
        simp [Main.step, Main.handleFlip, Main.resolveHat, hf, ht]
    | tapeAct =>
      cases hf : s'.isFlipped <;> cases ht : s'.hasTape <;>
        simp [Main.step, Main.handleTape, Main.resolveHat, hf, ht]
    | resetAct => rfl
    | mouseDown x y => exact ih
    | mouseMove x y =>
      have hp := mouseMove_preserves x y s'
      show (Main.handleMouseMove x y s').currentHatImage =
        Main.resolveHat (Main.handleMouseMove x y s').isFlipped
          (Main.handleMouseMove x y s').hasTape
      rw [hp.1, hp.2.1, hp.2.2.1]
      exact ih
    | mouseUp => exact ih
    | touchStart ts =>
      have hp := touchStart_preserves ts s'
      show (Main.handleTouchStart ts s').currentHatImage =
        Main.resolveHat (Main.handleTouchStart ts s').isFlipped
          (Main.handleTouchStart ts s').hasTape
      rw [hp.1, hp.2.1, hp.2.2.1]
      exact ih
    | touchMove ts =>
      have hp := touchMove_preserves ts s'
      show (Main.handleTouchMove ts s').currentHatImage =
        Main.resolveHat (Main.handleTouchMove ts s').isFlipped
          (Main.handleTouchMove ts s').hasTape
      rw [hp.1, hp.2.1, hp.2.2.1]
      exact ih
    | touchEnd => exact ih
    | saveAct a b c cw ch hw hh =>
      have hp := save_preserves a b c cw ch hw hh s'
      show ((Main.handleSave a b c cw ch hw hh s').state).currentHatImage =
        Main.resolveHat ((Main.handleSave a b c cw ch hw hh s').state).isFlipped
          ((Main.handleSave a b c cw ch hw hh s').state).hasTape
      rw [hp.1, hp.2.1, hp.2.2.1]
      exact ih
    | timerFire tid =>
      have hp := fireTimer_preserves tid s'
      show (Main.fireTimer tid s').currentHatImage =
        Main.resolveHat (Main.fireTimer tid s').isFlipped
          (Main.fireTimer tid s').hasTape
      rw [hp.1, hp.2.1, hp.2.2.1]
      exact ih

/-- C7: from any reachable Main-variant state, flipping twice returns the
selected overlay variant — hat asset and both toggle flags — to exactly what
it was; in the part_001 variant double flip is the identity on the whole
state. -/
theorem c7_flip_involution :
    (∀ s : Main.EditorState, Main.Reachable s →
      (Main.handleFlip (Main.handleFlip s)).currentHatImage = s.currentHatImage ∧
      (Main.handleFlip (Main.handleFlip s)).isFlipped = s.isFlipped ∧
      (Main.handleFlip (Main.handleFlip s)).hasTape = s.hasTape) ∧
    (∀ s : V1.EditorState, V1.handleFlip (V1.handleFlip s) = s) := by
  constructor
  · intro s h
    have hinv := hat_consistent s h
    refine ⟨?_, by simp [Main.handleFlip], rfl⟩
    rw [hinv]
    cases hf : s.isFlipped <;> cases ht : s.hasTape <;>
      simp [Main.handleFlip, Main.resolveHat, hf, ht]
  · intro s
    obtain ⟨bi, chi, tr, ois, st, dr, ds, pt, nt, cl⟩ := s
    cases chi <;> simp [V1.handleFlip]

/-- C7 witness: double flip at the (reachable) initial Main state. -/
theorem c7_flip_involution_witness :
    (Main.handleFlip (Main.handleFlip Main.initState)).currentHatImage =
      Main.initState.currentHatImage :=
  (c7_flip_involution.1 Main.initState Main.Reachable.init).1

/-- Every reachable Main-variant state has `flipX = false` and a positive
scale. -/
lemma main_transform_invariant : ∀ s : Main.EditorState, Main.Reachable s →
    s.transform.flipX = false ∧ 0 < s.transform.scale := by
  intro s h
  induction h with
  | init => exact ⟨rfl, by norm_num [Main.initState, initialTransform]⟩
  | next a hr ih =>
    rename_i s'
    cases a with
    | upload ok url w hgt =>
      show (Main.handleBaseImageUpload ok url w hgt s').transform.flipX = false ∧
        0 < (Main.handleBaseImageUpload ok url w hgt s').transform.scale
      unfold Main.handleBaseImageUpload
      split <;> exact ih
    | rotateAct d => exact ih
    | scaleAct d =>
      refine ⟨ih.1, ?_⟩
      show 0 < (scaleTransform d s'.transform).scale
      exact lt_of_lt_of_le (by norm_num) (scaleTransform_bounds d s'.transform).1
    | flipAct => exact ih
    | tapeAct => exact ih
    | resetAct => exact ⟨rfl, by norm_num [Main.step, Main.handleReset]⟩
    | mouseDown x y => exact ih
    | mouseMove x y =>
      show (Main.handleMouseMove x y s').transform.flipX = false ∧
        0 < (Main.handleMouseMove x y s').transform.scale
      unfold Main.handleMouseMove
      split <;> exact ih
    | mouseUp => exact ih
    | touchStart ts =>
      show (Main.handleTouchStart ts s').transform.flipX = false ∧
        0 < (Main.handleTouchStart ts s').transform.scale
      unfold Main.handleTouchStart
      split <;> exact ih
    | touchMove ts =>
      show (Main.handleTouchMove ts s').transform.flipX = false ∧
        0 < (Main.handleTouchMove ts s').transform.scale
      unfold Main.handleTouchMove
      split
      · split <;> exact ih
      · exact ih
    | touchEnd => exact ih
    | saveAct a b c cw ch hw hh =>
      show ((Main.handleSave a b c cw ch hw hh s').state).transform.flipX = false ∧
        0 < ((Main.handleSave a b c cw ch hw hh s').state).transform.scale
      unfold Main.handleSave
      split
      · exact ih
      · split <;> exact ih
    | timerFire tid =>
      show (Main.fireTimer tid s').transform.flipX = false ∧
        0 < (Main.fireTimer tid s').transform.scale
      unfold Main.fireTimer
      split <;> exact ih

/-- Every reachable V1-variant state has `flipX = false`. -/
lemma v1_flipX_invariant : ∀ s : V1.EditorState, V1.Reachable s →
    s.transform.flipX = false := by
  intro s h
  induction h with
  | init => rfl
  | next a hr ih =>
    rename_i s'
    cases a with
    | upload ok url w hgt =>
      show (V1.handleBaseImageUpload ok url w hgt s').transform.flipX = false
      unfold V1.handleBaseImageUpload
      split <;> exact ih
    | rotateAct d => exact ih
    | scaleAct d => exact ih
    | flipAct => exact ih
    | resetAct => rfl
    | mouseDown x y => exact ih
    | mouseMove x y =>
      show (V1.handleMouseMove x y s').transform.flipX = false
      unfold V1.handleMouseMove
      split <;> exact ih
    | mouseUp => exact ih
    | touchStart ts =>
      show (V1.handleTouchStart ts s').transform.flipX = false
      unfold V1.handleTouchStart
      split <;> exact ih
    | touchMove ts =>
      show (V1.handleTouchMove ts s').transform.flipX = false
      unfold V1.handleTouchMove
      split
      · split <;> exact ih
      · exact ih
    | touchEnd => exact ih
    | saveAct a b c cw ch hw hh =>
      show ((V1.handleSave a b c cw ch hw hh s').state).transform.flipX = false
      unfold V1.handleSave
      split
      · exact ih
      · split <;> exact ih
    | timerFire tid =>
      show (V1.fireTimer tid s').transform.flipX = false
      unfold V1.fireTimer
      split <;> exact ih

/-- Every reachable V2-variant state has `flipX = false`. -/
lemma v2_flipX_invariant : ∀ s : V2.EditorState, V2.Reachable s →
    s.transform.flipX = false := by
  intro s h
  induction h with
  | init => rfl
  | next a hr ih =>
    rename_i s'
    cases a with
    | upload ok url w hgt =>
      show (V2.handleBaseImageUpload ok url w hgt s').transform.flipX = false
      unfold V2.handleBaseImageUpload
      split <;> exact ih
    | rotateAct d => exact ih
    | scaleAct d => exact ih
    | flipAct => exact ih
    | resetAct => rfl
    | mouseDown x y => exact ih
    | mouseMove x y =>
      show (V2.handleMouseMove x y s').transform.flipX = false
      unfold V2.handleMouseMove
      split <;> exact ih
    | mouseUp => exact ih
    | touchStart ts =>
      show (V2.handleTouchStart ts s').transform.flipX = false
      unfold V2.handleTouchStart
      split <;> exact ih
    | touchMove ts =>
      show (V2.handleTouchMove ts s').transform.flipX = false
      unfold V2.handleTouchMove
      split
      · split <;> exact ih
      · exact ih
    | touchEnd => exact ih
    | saveAct a b c cw ch hw hh =>
      show ((V2.handleSave a b c cw ch hw hh s').state).transform.flipX = false
      unfold V2.handleSave
      split
      · exact ih
      · split <;> exact ih
    | timerFire tid =>
      show (V2.fireTimer tid s').transform.flipX = false
      unfold V2.fireTimer
      split <;> exact ih

/-- Every reachable V3-variant state has `flipX = false`. -/
lemma v3_flipX_invariant : ∀ s : V3.EditorState, V3.Reachable s →
    s.transform.flipX = false := by
  intro s h
  induction h with
  | init => rfl
  | next a hr ih =>
    rename_i s'
    cases a with
    | upload ok url w hgt =>
      show (V3.handleBaseImageUpload ok url w hgt s').transform.flipX = false
      unfold V3.handleBaseImageUpload
      split <;> exact ih
    | rotateAct d => exact ih
    | scaleAct d => exact ih
    | flipAct => exact ih
    | resetAct => rfl
    | windowControl => exact ih
    | mouseDown x y => exact ih
    | mouseMove x y =>
      show (V3.handleMouseMove x y s').transform.flipX = false
      unfold V3.handleMouseMove
      split <;> exact ih
    | mouseUp => exact ih
    | touchStart ts =>
      show (V3.handleTouchStart ts s').transform.flipX = false
      unfold V3.handleTouchStart
      split <;> exact ih
    | touchMove ts =>
      show (V3.handleTouchMove ts s').transform.flipX = false
      unfold V3.handleTouchMove
      split
      · split <;> exact ih
      · exact ih
    | touchEnd => exact ih
    | saveAct a b c cw ch orw hw hh =>
      show ((V3.handleSave a b c cw ch orw hw hh s').state).transform.flipX = false
      unfold V3.handleSave
      split
      · exact ih
      · split <;> exact ih
    | timerFire tid =>
      show (V3.fireTimer tid s').transform.flipX = false
      unfold V3.fireTimer
      split <;> exact ih
    | modalTimerFire tid =>
      show (V3.fireModalTimer tid s').transform.flipX = false
      unfold V3.fireModalTimer
      split <;> exact ih

/-- Every reachable V4-variant state has `flipX = false`. -/
lemma v4_flipX_invariant : ∀ s : V4.EditorState, V4.Reachable s →
    s.transform.flipX = false := by
  intro s h
  induction h with
  | init => rfl
  | next a hr ih =>
    rename_i s'
    cases a with
    | upload ok url w hgt =>
      show (V4.handleBaseImageUpload ok url w hgt s').transform.flipX = false
      unfold V4.handleBaseImageUpload
      split <;> exact ih
    | rotateAct d => exact ih
    | scaleAct d => exact ih
    | flipAct => exact ih
    | tapeAct => exact ih
    | colorChange c => exact ih
    | resetAct => rfl
    | mouseDown x y => exact ih
    | mouseMove x y =>
      show (V4.handleMouseMove x y s').transform.flipX = false
      unfold V4.handleMouseMove
      split <;> exact ih
    | mouseUp => exact ih
    | touchStart ts =>
      show (V4.handleTouchStart ts s').transform.flipX = false
      unfold V4.handleTouchStart
      split <;> exact ih
    | touchMove ts =>
      show (V4.handleTouchMove ts s').transform.flipX = false
      unfold V4.handleTouchMove
      split
      · split <;> exact ih
      · exact ih
    | touchEnd => exact ih
    | saveAct a b c cw ch hw hh =>
      show ((V4.handleSave a b c cw ch hw hh s').state).transform.flipX = false
      unfold V4.handleSave
      split
      · exact ih
      · split <;> exact ih
    | timerFire tid =>
      show (V4.fireTimer tid s').transform.flipX = false
      unfold V4.fireTimer
      split <;> exact ih

/-- C9: in every reachable state of every variant — Main, part_001 and all
three components of part_002 — `transform.flipX` is false; consequently in
the Main variant the export pipeline of a reachable state contains no mirror
operation (its op list is exactly the mirror-free one, and `ctx.scale(-1, 1)`
never occurs in it), and the preview's x-axis CSS scale is the plain
positive scale. -/
theorem c9_flipX_never_set :
    (∀ s : Main.EditorState, Main.Reachable s →
      s.transform.flipX = false ∧ 0 < s.transform.scale ∧
      (∀ cx cy sX sY hw hh : ℚ,
        Main.exportOverlayOps s.transform cx cy sX sY hw hh =
          [CanvasOp.translate (cx + s.transform.position.x * sX)
            (cy + s.transform.position.y * sY),
           CanvasOp.rotate (s.transform.rotation / 180),
           CanvasOp.scaleOp s.transform.scale s.transform.scale,
           CanvasOp.drawImg (-(100 * sX) / 2) (-(100 * sX * hh / hw) / 2)
            (100 * sX) (100 * sX * hh / hw)]) ∧
      (∀ cx cy sX sY hw hh : ℚ,
        CanvasOp.scaleOp (-1) 1 ∉ Main.exportOverlayOps s.transform cx cy sX sY hw hh) ∧
      getOverlayStyle s.transform =
        [CssOp.translatePercent (-50) (-50),
         CssOp.translatePx s.transform.position.x s.transform.position.y,
         CssOp.rotateDeg s.transform.rotation,
         CssOp.scaleXY s.transform.scale s.transform.scale]) ∧
    (∀ s : V1.EditorState, V1.Reachable s → s.transform.flipX = false) ∧
    (∀ s : V2.EditorState, V2.Reachable s → s.transform.flipX = false) ∧
    (∀ s : V3.EditorState, V3.Reachable s → s.transform.flipX = false) ∧
    (∀ s : V4.EditorState, V4.Reachable s → s.transform.flipX = false) := by
  refine ⟨?_, v1_flipX_invariant, v2_flipX_invariant, v3_flipX_invariant, v4_flipX_invariant⟩
  intro s h
  obtain ⟨hflip, hscale⟩ := main_transform_invariant s h
  have hops : ∀ cx cy sX sY hw hh : ℚ,
      Main.exportOverlayOps s.transform cx cy sX sY hw hh =
        [CanvasOp.translate (cx + s.transform.position.x * sX)
          (cy + s.transform.position.y * sY),
         CanvasOp.rotate (s.transform.rotation / 180),
         CanvasOp.scaleOp s.transform.scale s.transform.scale,
         CanvasOp.drawImg (-(100 * sX) / 2) (-(100 * sX * hh / hw) / 2)
          (100 * sX) (100 * sX * hh / hw)] := by
    intro cx cy sX sY hw hh
    simp [Main.exportOverlayOps, hflip]
  refine ⟨hflip, hscale, hops, ?_, ?_⟩
  · intro cx cy sX sY hw hh
    rw [hops]
    intro hmem
    have hcases := List.mem_cons.mp hmem
    rcases hcases with hc | hmem2
    · exact absurd hc (by simp)
    rcases List.mem_cons.mp hmem2 with hc | hmem3
    · exact absurd hc (by simp)
    rcases List.mem_cons.mp hmem3 with hc | hmem4
    · have hx : s.transform.scale = -1 := (CanvasOp.scaleOp.injEq _ _ _ _).mp hc.symm |>.1
      rw [hx] at hscale
      norm_num at hscale
    rcases List.mem_cons.mp hmem4 with hc | hmem5
    · exact absurd hc (by simp)
    · simp at hmem5
  · rw [show getOverlayStyle s.transform =
      [CssOp.translatePercent (-50) (-50),
       CssOp.translatePx s.transform.position.x s.transform.position.y,
       CssOp.rotateDeg s.transform.rotation,
       CssOp.scaleXY (s.transform.scale * (if s.transform.flipX then -1 else 1))
        s.transform.scale] from rfl, hflip]
    simp

/-- C9 witness: the invariant at the initial states. -/
theorem c9_flipX_never_set_witness :
    Main.initState.transform.flipX = false :=
  (c9_flipX_never_set.1 Main.initState Main.Reachable.init).1

/-- C8: the export pipeline composes, in order, the translation to the image
center plus the position scaled to native resolution, the rotation by the
degree angle converted to radians, the horizontal mirror exactly when
flipped, and the uniform scale — and its composite affine map has the same
linear part as the live preview's CSS transform list (where mirror and scale
are fused into one `scale(-s, s)` entry); the overlay is then drawn centered
on the local origin. -/
theorem c8_export_matches_preview :
    ∀ (t : Transform) (cx cy sX sY hw hh : ℚ),
      canvasAff (Main.exportOverlayOps t cx cy sX sY hw hh) =
        some { tx := cx + t.position.x * sX, ty := cy + t.position.y * sY,
               lin := { rotCoeff := t.rotation / 180,
                        sx := t.scale * (if t.flipX then -1 else 1),
                        sy := t.scale } } ∧
      cssLin (getOverlayStyle t) =
        some { rotCoeff := t.rotation / 180,
               sx := t.scale * (if t.flipX then -1 else 1),
               sy := t.scale } ∧
      (∃ front : List CanvasOp,
        Main.exportOverlayOps t cx cy sX sY hw hh =
          front ++ [CanvasOp.drawImg (-(100 * sX) / 2) (-(100 * sX * hh / hw) / 2)
            (100 * sX) (100 * sX * hh / hw)]) := by
  intro t cx cy sX sY hw hh
  refine ⟨?_, ?_, ?_⟩
  · cases hf : t.flipX <;>
      simp [Main.exportOverlayOps, canvasAff, affStep, idAff, hf, mul_comm]
  · cases hf : t.flipX <;>
      simp [getOverlayStyle, cssLin, cssLinStep, hf, mul_comm]
  · cases hf : t.flipX
    · refine ⟨[CanvasOp.translate (cx + t.position.x * sX) (cy + t.position.y * sY),
        CanvasOp.rotate (t.rotation / 180),
        CanvasOp.scaleOp t.scale t.scale], ?_⟩
      simp [Main.exportOverlayOps, hf]
    · refine ⟨[CanvasOp.translate (cx + t.position.x * sX) (cy + t.position.y * sY),
        CanvasOp.rotate (t.rotation / 180), CanvasOp.scaleOp (-1) 1,
        CanvasOp.scaleOp t.scale t.scale], ?_⟩
      simp [Main.exportOverlayOps, hf]

end SweetyChat
